import Mathlib

/-!
# Verification of the tlq_pipeline ETL stages

Shallow embedding of the three handlers of the repository
(`src/lambda/TransformCSV.py`, `src/lambda/LoadCSV.py`, `src/lambda/QueryDB.py`)
and proofs of the frozen claims about them.

Modelling conventions:
* Python `int(...)` / `float(...)` string coercion is embedded by
  `parsePyInt` / `parsePyFloat` (the decimal-literal subset actually
  exercised by the pipeline); decimal values are modelled by `ℚ`.
* `datetime.strptime(s, "%m/%d/%Y")` is embedded by `parsePyDate`, and
  `date.toordinal` by `toOrdinal` (proleptic Gregorian day count).
* Exceptions are modelled by `Except` / explicit outcome types; in
  particular Python's `ZeroDivisionError` on `totalProfit / totalRevenue`
  is modelled by an explicit test, since `ℚ` division is total in Lean.
* The S3 object read/write and the MySQL connection are external
  collaborators; the handlers are modelled from the point where the raw
  CSV rows are available, and the database is modelled as an explicit
  state (committed rows, in-flight transaction) with an event trace.
-/

/-! ## Python primitive coercions -/

/-- Numeric value of a decimal digit character. -/
def digitVal (c : Char) : Nat := c.toNat - '0'.toNat

/-- Value of a list of decimal digit characters, most significant first. -/
def natOfDigits (cs : List Char) : Nat := cs.foldl (fun a c => a * 10 + digitVal c) 0

/-- Python's `str.strip()`: removes leading and trailing whitespace
characters, written structurally on the character list so that proofs
can evaluate it. -/
def pyStrip (s : String) : String :=
  String.mk (((s.toList.dropWhile Char.isWhitespace).reverse.dropWhile
    Char.isWhitespace).reverse)

/-- Embedding of Python `int(s)` on strings: surrounding whitespace is
ignored, an optional single sign is allowed, and the rest must be a
nonempty run of decimal digits; anything else raises `ValueError`,
modelled as `none`. -/
def parsePyInt (s : String) : Option Int :=
  let cs := (pyStrip s).toList
  match cs with
  | '-' :: rest =>
      if rest ≠ [] ∧ rest.all Char.isDigit then some (-(natOfDigits rest : Int)) else none
  | '+' :: rest =>
      if rest ≠ [] ∧ rest.all Char.isDigit then some (natOfDigits rest : Int) else none
  | _ =>
      if cs ≠ [] ∧ cs.all Char.isDigit then some (natOfDigits cs : Int) else none

/-- Embedding of Python `float(s)` on the decimal literals produced and
consumed by this pipeline: surrounding whitespace ignored, optional
sign, then digits with at most one decimal point and at least one digit
overall.  The value is exact, modelled in `ℚ`. -/
def parsePyFloat (s : String) : Option ℚ :=
  let cs := (pyStrip s).toList
  let signed : Int × List Char :=
    match cs with
    | '-' :: rest => (-1, rest)
    | '+' :: rest => (1, rest)
    | _ => (1, cs)
  match (signed.2).splitOn '.' with
  | [ip] =>
      if ip ≠ [] ∧ ip.all Char.isDigit then
        some ((signed.1 * (natOfDigits ip : Int) : Int) : ℚ)
      else none
  | [ip, fp] =>
      if (ip ++ fp) ≠ [] ∧ (ip ++ fp).all Char.isDigit then
        some ((signed.1 : ℚ) * (natOfDigits (ip ++ fp) : ℚ) / ((10 : ℚ) ^ fp.length))
      else none
  | _ => none

/-! ## Dates (`%m/%d/%Y`) -/

/-- A calendar date as validated by `datetime.strptime`. -/
structure PyDate where
  year : Nat
  month : Nat
  day : Nat
deriving DecidableEq, Repr

/-- Gregorian leap-year test. -/
def isLeapYear (y : Nat) : Bool := (y % 4 == 0 && y % 100 != 0) || y % 400 == 0

/-- Length of month `m` in a non-leap year. -/
def monthLength (m : Nat) : Nat :=
  match m with
  | 1 => 31 | 2 => 28 | 3 => 31 | 4 => 30 | 5 => 31 | 6 => 30
  | 7 => 31 | 8 => 31 | 9 => 30 | 10 => 31 | 11 => 30 | 12 => 31
  | _ => 0

/-- Days strictly before month `m` in a non-leap year. -/
def daysBeforeMonth (m : Nat) : Nat :=
  match m with
  | 1 => 0 | 2 => 31 | 3 => 59 | 4 => 90 | 5 => 120 | 6 => 151
  | 7 => 181 | 8 => 212 | 9 => 243 | 10 => 273 | 11 => 304 | 12 => 334
  | _ => 0

/-- Embedding of `datetime.strptime(s, "%m/%d/%Y").date()`: three
slash-separated digit groups (month and day of one or two digits; the
year of exactly four digits, as CPython compiles `%Y` to the pattern
`\d\d\d\d`), validated as a real calendar date.  A mismatch raises
`ValueError`, modelled as `none`. -/
def parsePyDate (s : String) : Option PyDate :=
  match s.toList.splitOn '/' with
  | [mp, dp, yp] =>
      if mp ≠ [] ∧ mp.length ≤ 2 ∧ mp.all Char.isDigit ∧
         dp ≠ [] ∧ dp.length ≤ 2 ∧ dp.all Char.isDigit ∧
         yp.length = 4 ∧ yp.all Char.isDigit then
        let m := natOfDigits mp
        let d := natOfDigits dp
        let y := natOfDigits yp
        let maxDay := monthLength m + (if isLeapYear y ∧ m = 2 then 1 else 0)
        if 1 ≤ m ∧ m ≤ 12 ∧ 1 ≤ d ∧ d ≤ maxDay ∧ 1 ≤ y then
          some { year := y, month := m, day := d }
        else none
      else none
  | _ => none

/-- Embedding of `date.toordinal`: day number of the date in the
proleptic Gregorian calendar, with day 1 = January 1 of year 1. -/
def toOrdinal (d : PyDate) : Nat :=
  365 * (d.year - 1) + (d.year - 1) / 4 - (d.year - 1) / 100 + (d.year - 1) / 400 +
    daysBeforeMonth d.month + (if isLeapYear d.year ∧ 3 ≤ d.month then 1 else 0) + d.day

/-! ## TransformCSV.py -/

/-- The priority translation table of `TransformCSV.lambda_handler`
(`priority_map` at lines 64-69). -/
def priorityMap : List (String × String) :=
  [("L", "Low"), ("M", "Medium"), ("H", "High"), ("C", "Critical")]

/-- `priority_map.get(orderPriorityRaw, orderPriorityRaw)`. -/
def translatePriority (p : String) : String := (priorityMap.lookup p).getD p

/-- One written output row of the transform stage, with the typed values
produced by the coercions of lines 72-89 of `TransformCSV.py`. -/
structure OutRow where
  region : String
  country : String
  itemType : String
  salesChannel : String
  orderPriority : String
  orderDateStr : String
  orderId : String
  shipDateStr : String
  unitsSold : Int
  unitPrice : ℚ
  unitCost : ℚ
  totalRevenue : ℚ
  totalCost : ℚ
  totalProfit : ℚ
  orderProcessingTime : Int
  grossMargin : ℚ
  orderValue : ℚ
deriving DecidableEq, Repr

/-- Outcome of the per-row body of the transform loop: the row is
silently skipped, written as an output row, or raises an uncaught
exception (which terminates the whole handler, since the loop body of
`TransformCSV.py` has no try/except). -/
inductive RowOutcome where
  | skip : RowOutcome
  | ok : OutRow → RowOutcome
  | fatal : String → RowOutcome
deriving DecidableEq, Repr

/-- Boolean test for the exception outcome. -/
def RowOutcome.isFatal : RowOutcome → Bool
  | RowOutcome.fatal _ => true
  | _ => false

/-- The body of the `for row in reader` loop of `TransformCSV.py`
(lines 45-103), given the current `seen_order_ids` and one raw CSV
record.  Field positions follow the tuple unpacking of lines 51-56:
0 region, 1 country, 2 itemType, 3 salesChannel, 4 orderPriorityRaw,
5 orderDateStr, 6 orderId, 7 shipDateStr, 8 unitsSold, 9 unitPrice,
10 unitCost, 11 totalRevenue, 12 totalCost, 13 totalProfit.
A record of more than 14 fields makes the unpacking itself raise
`ValueError`; coercion failures, date mismatches, and a zero
`totalRevenue` also raise, uncaught. -/
def processRow (seen : List String) (row : List String) : RowOutcome × List String :=
  if row.length < 14 then (RowOutcome.skip, seen)
  else if row.length ≠ 14 then (RowOutcome.fatal "too many values to unpack", seen)
  else
    let orderId := row.getD 6 ""
    if seen.contains orderId then (RowOutcome.skip, seen)
    else
      let seen' := orderId :: seen
      match parsePyInt (row.getD 8 ""), parsePyFloat (row.getD 9 ""),
            parsePyFloat (row.getD 10 ""), parsePyFloat (row.getD 11 ""),
            parsePyFloat (row.getD 12 ""), parsePyFloat (row.getD 13 "") with
      | some unitsSold, some unitPrice, some unitCost,
        some totalRevenue, some totalCost, some totalProfit =>
          match parsePyDate (row.getD 5 ""), parsePyDate (row.getD 7 "") with
          | some orderDate, some shipDate =>
              if totalRevenue = 0 then (RowOutcome.fatal "division by zero", seen')
              else
                (RowOutcome.ok
                  { region := row.getD 0 "", country := row.getD 1 "",
                    itemType := row.getD 2 "", salesChannel := row.getD 3 "",
                    orderPriority := translatePriority (row.getD 4 ""),
                    orderDateStr := row.getD 5 "", orderId := orderId,
                    shipDateStr := row.getD 7 "", unitsSold := unitsSold,
                    unitPrice := unitPrice, unitCost := unitCost,
                    totalRevenue := totalRevenue, totalCost := totalCost,
                    totalProfit := totalProfit,
                    orderProcessingTime := (toOrdinal shipDate : Int) - (toOrdinal orderDate : Int),
                    grossMargin := totalProfit / totalRevenue,
                    orderValue := (unitsSold : ℚ) * unitPrice }, seen')
          | _, _ => (RowOutcome.fatal "time data does not match format", seen')
      | _, _, _, _, _, _ => (RowOutcome.fatal "invalid literal", seen')

/-- The transform loop over the data records (the header line of the
input is already skipped by `next(reader, None)`), threading
`seen_order_ids` (initially empty) and collecting the written rows in
order; the first uncaught exception aborts the whole run. -/
def transformLoop (seen : List String) : List (List String) → Except String (List OutRow)
  | [] => Except.ok []
  | r :: rest =>
      match processRow seen r with
      | (RowOutcome.skip, s') => transformLoop s' rest
      | (RowOutcome.ok o, s') => (transformLoop s' rest).map (fun l => o :: l)
      | (RowOutcome.fatal e, _) => Except.error e

/-- The run-level result of `TransformCSV.lambda_handler`: the written
rows, `row_count`, the two metric sums, and the averages of
lines 117-118 (`0 if row_count == 0 else sum / row_count`). -/
structure TransformResult where
  rows : List OutRow
  rowsTransformed : Nat
  sumRevenue : ℚ
  sumProfit : ℚ
  avgRevenue : ℚ
  avgProfit : ℚ
deriving DecidableEq, Repr

/-- `TransformCSV.lambda_handler` from the point where the raw CSV data
records are available (S3 read and write are external); `Except.error`
models the uncaught exception that makes the Lambda invocation fail. -/
def transformRun (rows : List (List String)) : Except String TransformResult :=
  (transformLoop [] rows).map fun outs =>
    let c := outs.length
    let sr := (outs.map OutRow.totalRevenue).sum
    let sp := (outs.map OutRow.totalProfit).sum
    { rows := outs, rowsTransformed := c, sumRevenue := sr, sumProfit := sp,
      avgRevenue := if c = 0 then 0 else sr / (c : ℚ),
      avgProfit := if c = 0 then 0 else sp / (c : ℚ) }

/-- A raw record that the transform loop can process without raising:
exactly 14 fields, numeric fields that coerce, date fields that match
`%m/%d/%Y`, and a nonzero `totalRevenue`.  (No condition on `orderId`:
the transform never inspects it beyond the duplicate check.) -/
def rowWellFormed (row : List String) : Bool :=
  row.length == 14 &&
  (parsePyInt (row.getD 8 "")).isSome &&
  (parsePyFloat (row.getD 9 "")).isSome &&
  (parsePyFloat (row.getD 10 "")).isSome &&
  (match parsePyFloat (row.getD 11 "") with
   | some rv => decide (rv ≠ 0)
   | none => false) &&
  (parsePyFloat (row.getD 12 "")).isSome &&
  (parsePyFloat (row.getD 13 "")).isSome &&
  (parsePyDate (row.getD 5 "")).isSome &&
  (parsePyDate (row.getD 7 "")).isSome

/-! ## LoadCSV.py -/

/-- One record of the transformed CSV as seen by the `csv.DictReader`
of `LoadCSV.py`: the sixteen named string fields of `required_cols`
(the seventeenth transform column, Order Value, is not read). -/
structure LoadRow where
  region : String
  country : String
  itemType : String
  salesChannel : String
  orderPriority : String
  orderDate : String
  orderId : String
  shipDate : String
  unitsSold : String
  unitPrice : String
  unitCost : String
  totalRevenue : String
  totalCost : String
  totalProfit : String
  orderProcessingTime : String
  grossMargin : String
deriving DecidableEq, Repr

/-- The `all(v.strip() == '' for v in row.values())` test of line 141:
every field is blank or whitespace-only. -/
def loadRowBlank (r : LoadRow) : Bool :=
  pyStrip r.region == "" && pyStrip r.country == "" && pyStrip r.itemType == "" &&
  pyStrip r.salesChannel == "" && pyStrip r.orderPriority == "" && pyStrip r.orderDate == "" &&
  pyStrip r.orderId == "" && pyStrip r.shipDate == "" && pyStrip r.unitsSold == "" &&
  pyStrip r.unitPrice == "" && pyStrip r.unitCost == "" && pyStrip r.totalRevenue == "" &&
  pyStrip r.totalCost == "" && pyStrip r.totalProfit == "" &&
  pyStrip r.orderProcessingTime == "" && pyStrip r.grossMargin == ""

/-- One typed row of the `sales` table, in the column order of the
`INSERT` statement of lines 101-107. -/
structure SalesRec where
  order_id : Int
  region : String
  country : String
  item_type : String
  sales_channel : String
  order_priority : String
  order_date : String
  ship_date : String
  units_sold : Int
  unit_price : ℚ
  unit_cost : ℚ
  total_revenue : ℚ
  total_cost : ℚ
  total_profit : ℚ
  order_processing_time : Int
  gross_margin : ℚ
deriving DecidableEq, Repr

/-- The per-row extraction of lines 147-177 of `LoadCSV.py`: a row with
an empty (after strip) Order ID is skipped by the explicit `continue`;
a coercion failure raises inside the per-row `try` and is caught and
logged at lines 187-189.  Both paths leave the row read but not added
to the batch, so both are modelled as `none`. -/
def parseLoadRow (r : LoadRow) : Option SalesRec :=
  let oid := pyStrip r.orderId
  if oid = "" then none
  else
    match parsePyInt oid, parsePyInt r.unitsSold, parsePyFloat r.unitPrice,
          parsePyFloat r.unitCost, parsePyFloat r.totalRevenue, parsePyFloat r.totalCost,
          parsePyFloat r.totalProfit, parsePyInt r.orderProcessingTime,
          parsePyFloat r.grossMargin with
    | some a, some us, some up, some uc, some trv, some tc, some tp, some pt, some gm =>
        some { order_id := a, region := pyStrip r.region, country := pyStrip r.country,
               item_type := pyStrip r.itemType, sales_channel := pyStrip r.salesChannel,
               order_priority := pyStrip r.orderPriority, order_date := pyStrip r.orderDate,
               ship_date := pyStrip r.shipDate, units_sold := us, unit_price := up,
               unit_cost := uc, total_revenue := trv, total_cost := tc,
               total_profit := tp, order_processing_time := pt, gross_margin := gm }
    | _, _, _, _, _, _, _, _, _ => none

/-- The batched row loop of lines 136-189 of `LoadCSV.py`.  Arguments:
remaining CSV records, the current Python-side `batch` list,
`rows_read`, `rows_inserted`.  Returns the final `rows_read`, the final
`rows_inserted` accumulated by the in-loop commits, the list of batches
inserted-and-committed inside the loop (each exactly when `len(batch)`
reaches `BATCH_SIZE = 1000`), and the leftover partial batch that the
code flushes after the loop. -/
def loadLoop : List LoadRow → List SalesRec → Nat → Nat →
    Nat × Nat × List (List SalesRec) × List SalesRec
  | [], batch, rr, ins => (rr, ins, [], batch)
  | r :: rest, batch, rr, ins =>
      if loadRowBlank r then loadLoop rest batch rr ins
      else
        match parseLoadRow r with
        | none => loadLoop rest batch (rr + 1) ins
        | some rec =>
            let b := batch ++ [rec]
            if 1000 ≤ b.length then
              let out := loadLoop rest [] (rr + 1) (ins + b.length)
              (out.1, out.2.1, b :: out.2.2.1, out.2.2.2)
            else loadLoop rest b (rr + 1) ins

/-- The relational store: the committed rows of `sales` and the rows of
the in-flight, not yet committed transaction. -/
structure DBState where
  committed : List SalesRec
  pending : List SalesRec
deriving DecidableEq, Repr

/-- `connection.commit()`: the in-flight rows become durable. -/
def dbCommit (db : DBState) : DBState := { committed := db.committed ++ db.pending, pending := [] }

/-- `TRUNCATE TABLE sales`: removes every stored row. -/
def dbTruncate (db : DBState) : DBState := { committed := [], pending := db.pending }

/-- `cursor.executemany(insert_sql, batch)`: the batch enters the open
transaction. -/
def dbInsert (rows : List SalesRec) (db : DBState) : DBState :=
  { committed := db.committed, pending := db.pending ++ rows }

/-- `connection.rollback()`: discards only the in-flight transaction;
committed rows are untouched. -/
def dbRollback (db : DBState) : DBState := { committed := db.committed, pending := [] }

/-- One full-batch insert followed by its immediate commit. -/
def applyBatch (db : DBState) (b : List SalesRec) : DBState := dbCommit (dbInsert b db)

/-- Ordered record of the externally visible database and storage
operations of one load run. -/
inductive DBEvent where
  | createTable : DBEvent
  | commitDDL : DBEvent
  | truncateTable : DBEvent
  | commitTruncate : DBEvent
  | readObject : DBEvent
  | insertRows : List SalesRec → DBEvent
  | commitBatch : DBEvent
  | rollback : DBEvent
deriving DecidableEq, Repr

/-- Injected run-fatal failure for `LoadCSV.lambda_handler`: none, the
S3 `get_object` of line 112 raising, or the commit of the final partial
batch (line 194) raising.  (A mid-loop insert or commit failure is
caught by the per-row `try` of lines 146-189 and is not run-fatal.) -/
inductive LoadFail where
  | noFail : LoadFail
  | failAtRead : LoadFail
  | failAtFinalFlush : LoadFail
deriving DecidableEq, Repr

/-- Result of one modelled load run. -/
structure LoadOutcome where
  ok : Bool
  rowsRead : Nat
  rowsInserted : Nat
  commits : List (List SalesRec)
  db : DBState
  trace : List DBEvent
deriving DecidableEq, Repr

/-- `LoadCSV.lambda_handler` from the point where the connection is
established, over the data records of the transformed CSV (the header
is consumed by `DictReader`), for a table whose pre-run committed
contents are `init`.  The step order follows the source: ensure table
and commit (lines 86-88), truncate and commit (lines 94-96), read the
object (line 112), then the batched loop and the final flush
(lines 136-196); on a run-fatal error the handler rolls back the open
transaction only (lines 207-214). -/
def lambda_handler_load (init : List SalesRec) (csv : List LoadRow) (f : LoadFail) :
    LoadOutcome :=
  let db0 : DBState := { committed := init, pending := [] }
  let db2 := dbCommit (dbTruncate (dbCommit db0))
  let pre : List DBEvent :=
    [DBEvent.createTable, DBEvent.commitDDL, DBEvent.truncateTable,
     DBEvent.commitTruncate, DBEvent.readObject]
  match f with
  | LoadFail.failAtRead =>
      { ok := false, rowsRead := 0, rowsInserted := 0, commits := [],
        db := dbRollback db2, trace := pre ++ [DBEvent.rollback] }
  | _ =>
      let out := loadLoop csv [] 0 0
      let rr := out.1
      let ins := out.2.1
      let mids := out.2.2.1
      let lf := out.2.2.2
      let db3 := mids.foldl applyBatch db2
      let midEv := mids.flatMap (fun b => [DBEvent.insertRows b, DBEvent.commitBatch])
      if lf.isEmpty then
        { ok := true, rowsRead := rr, rowsInserted := ins, commits := mids,
          db := db3, trace := pre ++ midEv }
      else
        match f with
        | LoadFail.failAtFinalFlush =>
            { ok := false, rowsRead := rr, rowsInserted := ins, commits := mids,
              db := dbRollback (dbInsert lf db3),
              trace := pre ++ midEv ++ [DBEvent.insertRows lf, DBEvent.rollback] }
        | _ =>
            { ok := true, rowsRead := rr, rowsInserted := ins + lf.length,
              commits := mids ++ [lf], db := dbCommit (dbInsert lf db3),
              trace := pre ++ midEv ++ [DBEvent.insertRows lf, DBEvent.commitBatch] }

/-- A CSV record the load loop reads and batches: not blank, Order ID
nonempty after strip, and every coercion succeeding. -/
def loadRowValid (r : LoadRow) : Bool :=
  !loadRowBlank r && (parseLoadRow r).isSome

/-! ## QueryDB.py -/

/-- `ALLOWED_FUNCS` of `QueryDB.py` line 11. -/
def ALLOWED_FUNCS : List String := ["SUM", "AVG", "MIN", "MAX", "COUNT"]

/-- `COLUMN_MAP` of `QueryDB.py` lines 14-30. -/
def COLUMN_MAP : List (String × String) :=
  [("Region", "region"), ("Country", "country"), ("Item Type", "item_type"),
   ("Sales Channel", "sales_channel"), ("Order Priority", "order_priority"),
   ("Order Date", "order_date"), ("Ship Date", "ship_date"),
   ("Units Sold", "units_sold"), ("Unit Price", "unit_price"),
   ("Unit Cost", "unit_cost"), ("Total Revenue", "total_revenue"),
   ("Total Cost", "total_cost"), ("Total Profit", "total_profit"),
   ("Order Processing Time", "order_processing_time"), ("Gross Margin", "gross_margin")]

/-- `normalize_column` of `QueryDB.py` lines 33-35: mapped readable name,
falling back to lowercase with spaces replaced by underscores. -/
def normalize_column (s : String) : String :=
  (COLUMN_MAP.lookup s).getD ((s.toLower).replace " " "_")

/-- The aggregation-field construction of `QueryDB.py` lines 90-106:
for each `(alias, expr)`, requires both parentheses to be present,
whitelists the upper-cased function name before the first opening
parenthesis, normalizes the column between the first opening and the
first closing parenthesis, and emits the literal select field.  A
violation raises `ValueError`, aborting the whole request. -/
def buildAggFields : List (String × String) → Except String (List String)
  | [] => Except.ok []
  | (al, expr0) :: rest =>
      let expr := pyStrip expr0
      let cs := expr.toList
      if cs.contains '(' ∧ cs.contains ')' then
        match cs.findIdx? (fun c => c = '('), cs.findIdx? (fun c => c = ')') with
        | some i, some j =>
            let func := (String.mk (cs.take i)).toUpper
            if ALLOWED_FUNCS.contains func then
              let col := pyStrip (String.mk ((cs.drop (i + 1)).take (j - (i + 1))))
              (buildAggFields rest).map
                (fun l => (func ++ "(" ++ normalize_column col ++ ") AS " ++ al) :: l)
            else Except.error ("Invalid aggregation function: " ++ func)
        | _, _ => Except.error ("Invalid aggregation format: " ++ expr)
      else Except.error ("Invalid aggregation format: " ++ expr)

/-- The SQL construction of `QueryDB.lambda_handler` (lines 86-138):
builds the query text and the ordered bound-parameter list.  Filter
values enter only the parameter list; the text receives only the
whitelisted function names and normalized column names. -/
def buildQuery (filters : List (String × String)) (groupBy : List String)
    (aggregations : List (String × String)) : Except String (String × List String) :=
  (buildAggFields aggregations).bind fun aggFields =>
    let selectFields := aggFields ++ groupBy.map normalize_column
    if selectFields.isEmpty then
      Except.error "No fields to select. Provide aggregations or groupBy."
    else
      let base := "SELECT " ++ String.intercalate ", " selectFields ++ " FROM sales"
      let withWhere :=
        if filters.isEmpty then base
        else base ++ " WHERE " ++
          String.intercalate " AND " (filters.map (fun kv => normalize_column kv.1 ++ " = %s"))
      let sql :=
        if groupBy.isEmpty then withWhere
        else withWhere ++ " GROUP BY " ++ String.intercalate ", " (groupBy.map normalize_column)
      Except.ok (sql, filters.map (fun kv => kv.2))

/-! ## Spec-side reference definitions -/

/-- Reference formulation of the deduplication policy, written from the
spec's words ("only the first is retained; the rest are dropped"),
with the already-seen keys as an accumulator. -/
def keepFirstAux (seen : List String) : List String → List String
  | [] => []
  | x :: xs =>
      if seen.contains x then keepFirstAux seen xs
      else x :: keepFirstAux (x :: seen) xs

/-- Reference formulation of the deduplication policy on a whole run:
keep the first occurrence of every key, starting from no seen keys. -/
def keepFirstOccurrences (l : List String) : List String := keepFirstAux [] l

/-! ## Concrete example inputs -/

/-- A raw input record with exactly 14 well-formed fields. -/
def sampleRawRow : List String :=
  ["a", "b", "c", "d", "H", "1/1/2020", "1", "1/5/2020",
   "10", "2.5", "1.0", "200.0", "1.0", "50.0"]

/-- The transformed output row of `sampleRawRow`. -/
def sampleOutRow : OutRow :=
  { region := "a", country := "b", itemType := "c", salesChannel := "d",
    orderPriority := "High", orderDateStr := "1/1/2020", orderId := "1",
    shipDateStr := "1/5/2020", unitsSold := 10, unitPrice := 5/2, unitCost := 1,
    totalRevenue := 200, totalCost := 1, totalProfit := 50,
    orderProcessingTime := 4, grossMargin := 1/4, orderValue := 25 }

/-- The transform result of running on `[sampleRawRow]` plus a
duplicate-key record. -/
def sampleTransformResult : TransformResult :=
  { rows := [sampleOutRow], rowsTransformed := 1, sumRevenue := 200, sumProfit := 50,
    avgRevenue := 200, avgProfit := 50 }

/-- A 14-field record whose `totalRevenue` field is `0`. -/
def zeroRevenueRow : List String :=
  ["a", "b", "c", "d", "H", "1/1/2020", "1", "1/5/2020",
   "10", "2.5", "1.0", "0", "1.0", "50.0"]

/-- A 14-field record sharing `sampleRawRow`'s orderId, with otherwise
unparseable fields. -/
def dupIdRawRow : List String :=
  ["z", "z", "z", "z", "z", "z", "1", "z", "z", "z", "z", "z", "z", "z"]

/-- A well-formed 14-field record whose orderId field is empty. -/
def emptyIdRawRow : List String :=
  ["a", "b", "c", "d", "H", "1/1/2020", "", "1/5/2020",
   "10", "2.5", "1.0", "200.0", "1.0", "50.0"]

/-- The transformed output row of `emptyIdRawRow`. -/
def emptyIdOutRow : OutRow :=
  { region := "a", country := "b", itemType := "c", salesChannel := "d",
    orderPriority := "High", orderDateStr := "1/1/2020", orderId := "",
    shipDateStr := "1/5/2020", unitsSold := 10, unitPrice := 5/2, unitCost := 1,
    totalRevenue := 200, totalCost := 1, totalProfit := 50,
    orderProcessingTime := 4, grossMargin := 1/4, orderValue := 25 }

/-- A valid transformed-CSV record for the load stage. -/
def sampleLoadRow : LoadRow :=
  { region := "Europe", country := "France", itemType := "Fruits",
    salesChannel := "Online", orderPriority := "High", orderDate := "1/1/2020",
    orderId := "7", shipDate := "1/5/2020", unitsSold := "10", unitPrice := "2.5",
    unitCost := "1.0", totalRevenue := "200.0", totalCost := "1.0",
    totalProfit := "50.0", orderProcessingTime := "4", grossMargin := "0.25" }

/-- A fully blank transformed-CSV record. -/
def blankLoadRow : LoadRow :=
  { region := "", country := "", itemType := "", salesChannel := "",
    orderPriority := "", orderDate := "", orderId := "", shipDate := "",
    unitsSold := "", unitPrice := "", unitCost := "", totalRevenue := "",
    totalCost := "", totalProfit := "", orderProcessingTime := "", grossMargin := "" }

/-- A transformed-CSV record whose Order ID is whitespace-only. -/
def emptyIdLoadRow : LoadRow :=
  { sampleLoadRow with orderId := " " }

/-! ## Helper lemmas: transform stage -/

/-- The dictionary lookup `priority_map.get(p, p)` agrees with the
spec's case description of the translation. -/
lemma translatePriority_eq (p : String) :
    translatePriority p =
      (if p = "L" then "Low" else if p = "M" then "Medium"
       else if p = "H" then "High" else if p = "C" then "Critical" else p) := by
  by_cases h1 : p = "L"
  · subst h1; rfl
  by_cases h2 : p = "M"
  · subst h2; rfl
  by_cases h3 : p = "H"
  · subst h3; rfl
  by_cases h4 : p = "C"
  · subst h4; rfl
  have e1 : (p == "L") = false := beq_eq_false_iff_ne.mpr h1
  have e2 : (p == "M") = false := beq_eq_false_iff_ne.mpr h2
  have e3 : (p == "H") = false := beq_eq_false_iff_ne.mpr h3
  have e4 : (p == "C") = false := beq_eq_false_iff_ne.mpr h4
  simp [translatePriority, priorityMap, List.lookup, e1, e2, e3, e4, h1, h2, h3, h4]

/-- A record of fewer than 14 fields is skipped, with the seen set
unchanged. -/
lemma processRow_short (seen : List String) (row : List String) (h : row.length < 14) :
    processRow seen row = (RowOutcome.skip, seen) := by
  simp [processRow, h]

/-- A 14-field record whose orderId was already seen is skipped, with
the seen set unchanged. -/
lemma processRow_dup (seen : List String) (row : List String) (hlen : row.length = 14)
    (hc : seen.contains (row.getD 6 "") = true) :
    processRow seen row = (RowOutcome.skip, seen) := by
  simp only [processRow]
  rw [if_neg (by omega), if_neg (by omega), if_pos hc]

/-- A record of more than 14 fields makes the tuple unpacking raise. -/
lemma processRow_long (seen : List String) (row : List String) (h : 15 ≤ row.length) :
    processRow seen row = (RowOutcome.fatal "too many values to unpack", seen) := by
  have h1 : ¬ row.length < 14 := by omega
  have h2 : row.length ≠ 14 := by omega
  simp [processRow, h1, h2]

/-- Full success of the per-row body on an unpacked 14-field record:
every coercion succeeds, the revenue is nonzero, and the orderId is
fresh. -/
lemma processRow_ok_of_parses
    (a0 a1 a2 a3 a4 a5 a6 a7 a8 a9 a10 a11 a12 a13 : String)
    (u : Int) (p c rv tc tp : ℚ) (d1 d2 : PyDate) (seen : List String)
    (h1 : parsePyInt a8 = some u) (h2 : parsePyFloat a9 = some p)
    (h3 : parsePyFloat a10 = some c) (h4 : parsePyFloat a11 = some rv)
    (h5 : parsePyFloat a12 = some tc) (h6 : parsePyFloat a13 = some tp)
    (h7 : parsePyDate a5 = some d1) (h8 : parsePyDate a7 = some d2)
    (h9 : rv ≠ 0) (hseen : a6 ∉ seen) :
    processRow seen [a0, a1, a2, a3, a4, a5, a6, a7, a8, a9, a10, a11, a12, a13] =
      (RowOutcome.ok
        { region := a0, country := a1, itemType := a2, salesChannel := a3,
          orderPriority := translatePriority a4, orderDateStr := a5, orderId := a6,
          shipDateStr := a7, unitsSold := u, unitPrice := p, unitCost := c,
          totalRevenue := rv, totalCost := tc, totalProfit := tp,
          orderProcessingTime := (toOrdinal d2 : Int) - (toOrdinal d1 : Int),
          grossMargin := tp / rv, orderValue := (u : ℚ) * p }, a6 :: seen) := by
  simp [processRow, hseen, h1, h2, h3, h4, h5, h6, h7, h8, h9]

/-- Inversion for a successful transform run. -/
lemma transformRun_ok_elim (rows : List (List String)) (res : TransformResult)
    (h : transformRun rows = Except.ok res) :
    ∃ outs, transformLoop [] rows = Except.ok outs ∧
      res = { rows := outs, rowsTransformed := outs.length,
              sumRevenue := (outs.map OutRow.totalRevenue).sum,
              sumProfit := (outs.map OutRow.totalProfit).sum,
              avgRevenue := if outs.length = 0 then 0
                            else (outs.map OutRow.totalRevenue).sum / (outs.length : ℚ),
              avgProfit := if outs.length = 0 then 0
                           else (outs.map OutRow.totalProfit).sum / (outs.length : ℚ) } := by
  cases ho : transformLoop [] rows with
  | error e => rw [transformRun, ho] at h; simp [Except.map] at h
  | ok outs =>
      refine ⟨outs, rfl, ?_⟩
      rw [transformRun, ho] at h
      simp only [Except.map, Except.ok.injEq] at h
      exact h.symm

/-- Bridge between Python's `in` test (`List.contains`) and membership. -/
lemma contains_true_iff (l : List String) (x : String) : l.contains x = true ↔ x ∈ l := by
  simp

/-- A list of length 14 is literally a 14-element list. -/
lemma list_eq_of_length_14 (row : List String) (hlen : row.length = 14) :
    ∃ a0 a1 a2 a3 a4 a5 a6 a7 a8 a9 a10 a11 a12 a13,
      row = [a0, a1, a2, a3, a4, a5, a6, a7, a8, a9, a10, a11, a12, a13] := by
  rcases row with _ | ⟨a0, row⟩; · simp at hlen
  rcases row with _ | ⟨a1, row⟩; · simp at hlen
  rcases row with _ | ⟨a2, row⟩; · simp at hlen
  rcases row with _ | ⟨a3, row⟩; · simp at hlen
  rcases row with _ | ⟨a4, row⟩; · simp at hlen
  rcases row with _ | ⟨a5, row⟩; · simp at hlen
  rcases row with _ | ⟨a6, row⟩; · simp at hlen
  rcases row with _ | ⟨a7, row⟩; · simp at hlen
  rcases row with _ | ⟨a8, row⟩; · simp at hlen
  rcases row with _ | ⟨a9, row⟩; · simp at hlen
  rcases row with _ | ⟨a10, row⟩; · simp at hlen
  rcases row with _ | ⟨a11, row⟩; · simp at hlen
  rcases row with _ | ⟨a12, row⟩; · simp at hlen
  rcases row with _ | ⟨a13, row⟩; · simp at hlen
  rcases row with _ | ⟨a14, row⟩
  · exact ⟨a0, a1, a2, a3, a4, a5, a6, a7, a8, a9, a10, a11, a12, a13, rfl⟩
  · simp at hlen


/-- A well-formed record whose orderId is fresh is transformed into an
output row carrying that orderId, and the orderId is recorded as seen. -/
lemma processRow_wf (seen : List String) (row : List String)
    (hwf : rowWellFormed row = true) (hc : seen.contains (row.getD 6 "") = false) :
    ∃ o : OutRow, processRow seen row = (RowOutcome.ok o, (row.getD 6 "") :: seen) ∧
      o.orderId = row.getD 6 "" := by
  have hwf' := hwf
  simp only [rowWellFormed, Bool.and_eq_true, beq_iff_eq] at hwf'
  obtain ⟨⟨⟨⟨⟨⟨⟨⟨hlen, h8⟩, h9⟩, h10⟩, h11m⟩, h12⟩, h13⟩, h5⟩, h7⟩ := hwf'
  obtain ⟨a0, a1, a2, a3, a4, a5, a6, a7, a8, a9, a10, a11, a12, a13, rfl⟩ :=
    list_eq_of_length_14 row hlen
  simp only [List.getD_cons_zero, List.getD_cons_succ] at h8 h9 h10 h11m h12 h13 h5 h7 hc ⊢
  rcases hrv : parsePyFloat a11 with _ | rv
  · rw [hrv] at h11m; simp at h11m
  · rw [hrv] at h11m
    simp only [decide_eq_true_eq] at h11m
    obtain ⟨u, hu⟩ := Option.isSome_iff_exists.mp h8
    obtain ⟨p, hp⟩ := Option.isSome_iff_exists.mp h9
    obtain ⟨cc, hcost⟩ := Option.isSome_iff_exists.mp h10
    obtain ⟨tc, htc⟩ := Option.isSome_iff_exists.mp h12
    obtain ⟨tp, htp⟩ := Option.isSome_iff_exists.mp h13
    obtain ⟨d1, hd1⟩ := Option.isSome_iff_exists.mp h5
    obtain ⟨d2, hd2⟩ := Option.isSome_iff_exists.mp h7
    have hmem : a6 ∉ seen := by
      intro hm
      rw [(contains_true_iff seen a6).mpr hm] at hc
      simp at hc
    exact ⟨_, processRow_ok_of_parses a0 a1 a2 a3 a4 a5 a6 a7 a8 a9 a10 a11 a12 a13
      u p cc rv tc tp d1 d2 seen hu hp hcost hrv htc htp hd1 hd2 h11m hmem, rfl⟩

/-- Every record of an all-short input is skipped, giving an empty
output. -/
lemma transformLoop_all_short : ∀ (rows : List (List String)) (seen : List String),
    (∀ r ∈ rows, r.length < 14) → transformLoop seen rows = Except.ok [] := by
  intro rows
  induction rows with
  | nil => intro seen _; rfl
  | cons r rest ih =>
      intro seen h
      have hs := processRow_short seen r (h r (by simp))
      simp only [transformLoop, hs]
      exact ih seen (fun x hx => h x (by simp [hx]))

/-- The transform loop completes (no uncaught exception) whenever every
record is either short or well-formed; duplicates are allowed freely. -/
lemma transformLoop_ok_of_recoverable : ∀ (rows : List (List String)) (seen : List String),
    (∀ r ∈ rows, r.length < 14 ∨ rowWellFormed r = true) →
    ∃ outs, transformLoop seen rows = Except.ok outs := by
  intro rows
  induction rows with
  | nil => intro seen _; exact ⟨[], rfl⟩
  | cons r rest ih =>
      intro seen h
      have hrest : ∀ x ∈ rest, x.length < 14 ∨ rowWellFormed x = true :=
        fun x hx => h x (by simp [hx])
      rcases h r (by simp) with hshort | hwf
      · have hs := processRow_short seen r hshort
        obtain ⟨outs, ho⟩ := ih seen hrest
        exact ⟨outs, by simp only [transformLoop, hs]; exact ho⟩
      · cases hcb : seen.contains (r.getD 6 "") with
        | true =>
            have hlen : r.length = 14 := by
              have := hwf
              simp only [rowWellFormed, Bool.and_eq_true, beq_iff_eq] at this
              exact this.1.1.1.1.1.1.1.1
            have hs := processRow_dup seen r hlen hcb
            obtain ⟨outs, ho⟩ := ih seen hrest
            exact ⟨outs, by simp only [transformLoop, hs]; exact ho⟩
        | false =>
            obtain ⟨o, ho, _⟩ := processRow_wf seen r hwf hcb
            obtain ⟨outs, hrest'⟩ := ih ((r.getD 6 "") :: seen) hrest
            exact ⟨o :: outs, by simp only [transformLoop, ho, hrest', Except.map]⟩

/-- On a fresh 14-field record the per-row body either raises or
produces an output row; in both cases the orderId has been recorded. -/
lemma processRow_shape (seen : List String) (row : List String)
    (hlen : row.length = 14) (hc : seen.contains (row.getD 6 "") = false) :
    (∃ e, processRow seen row = (RowOutcome.fatal e, (row.getD 6 "") :: seen)) ∨
    (∃ o, processRow seen row = (RowOutcome.ok o, (row.getD 6 "") :: seen)) := by
  simp only [processRow]
  rw [if_neg (by omega), if_neg (by omega),
      if_neg (by simp only [hc]; exact Bool.false_ne_true)]
  split
  · split
    · split
      · exact Or.inl ⟨_, rfl⟩
      · exact Or.inr ⟨_, rfl⟩
    · exact Or.inl ⟨_, rfl⟩
  · exact Or.inl ⟨_, rfl⟩

/-- Inversion of a skip outcome: the record was short, or it was a
14-field record with an already-seen orderId; the seen set is kept. -/
lemma processRow_skip_elim (seen : List String) (row : List String) (s' : List String)
    (h : processRow seen row = (RowOutcome.skip, s')) :
    s' = seen ∧
    (row.length < 14 ∨ (row.length = 14 ∧ seen.contains (row.getD 6 "") = true)) := by
  by_cases h14 : row.length < 14
  · rw [processRow_short seen row h14] at h
    simp only [Prod.mk.injEq] at h
    exact ⟨h.2.symm, Or.inl h14⟩
  · by_cases h15 : row.length = 14
    · cases hcb : seen.contains (row.getD 6 "") with
      | true =>
          rw [processRow_dup seen row h15 hcb] at h
          simp only [Prod.mk.injEq] at h
          exact ⟨h.2.symm, Or.inr ⟨h15, rfl⟩⟩
      | false =>
          rcases processRow_shape seen row h15 hcb with ⟨e, he⟩ | ⟨o, ho⟩
          · rw [he] at h; simp at h
          · rw [ho] at h; simp at h
    · rw [processRow_long seen row (by omega)] at h; simp at h

/-- Inversion of a successful outcome: every coercion succeeded, the
revenue is nonzero, the orderId was fresh and is recorded, and the
output row is exactly the enriched record. -/
lemma processRow_ok_inversion (seen : List String) (row : List String) (o : OutRow)
    (s' : List String) (h : processRow seen row = (RowOutcome.ok o, s')) :
    ∃ u p c rv tc tp d1 d2,
      parsePyInt (row.getD 8 "") = some u ∧ parsePyFloat (row.getD 9 "") = some p ∧
      parsePyFloat (row.getD 10 "") = some c ∧ parsePyFloat (row.getD 11 "") = some rv ∧
      parsePyFloat (row.getD 12 "") = some tc ∧ parsePyFloat (row.getD 13 "") = some tp ∧
      parsePyDate (row.getD 5 "") = some d1 ∧ parsePyDate (row.getD 7 "") = some d2 ∧
      rv ≠ 0 ∧ row.length = 14 ∧ seen.contains (row.getD 6 "") = false ∧
      s' = (row.getD 6 "") :: seen ∧
      o = { region := row.getD 0 "", country := row.getD 1 "", itemType := row.getD 2 "",
            salesChannel := row.getD 3 "",
            orderPriority := translatePriority (row.getD 4 ""),
            orderDateStr := row.getD 5 "", orderId := row.getD 6 "",
            shipDateStr := row.getD 7 "", unitsSold := u, unitPrice := p, unitCost := c,
            totalRevenue := rv, totalCost := tc, totalProfit := tp,
            orderProcessingTime := (toOrdinal d2 : Int) - (toOrdinal d1 : Int),
            grossMargin := tp / rv, orderValue := (u : ℚ) * p } := by
  simp only [processRow] at h
  split at h
  · exact absurd h (by simp)
  · split at h
    · exact absurd h (by simp)
    · split at h
      · exact absurd h (by simp)
      · rename_i hn1 hn2 hcb'
        split at h <;> try exact RowOutcome.noConfusion (congrArg Prod.fst h)
        split at h <;> try exact RowOutcome.noConfusion (congrArg Prod.fst h)
        split at h
        · exact RowOutcome.noConfusion (congrArg Prod.fst h)
        · rw [Prod.mk.injEq] at h
          obtain ⟨h1, h2⟩ := h
          injection h1 with h1
          refine ⟨_, _, _, _, _, _, _, _, by assumption, by assumption, by assumption,
            by assumption, by assumption, by assumption, by assumption, by assumption,
            by assumption, by omega, by simpa using hcb', h2.symm, h1.symm⟩

/-- Keys surviving `keepFirstAux` were not already seen. -/
lemma keepFirstAux_not_seen : ∀ (l : List String) (seen : List String) (x : String),
    x ∈ keepFirstAux seen l → x ∉ seen := by
  intro l
  induction l with
  | nil => intro seen x hx; simp [keepFirstAux] at hx
  | cons y ys ih =>
      intro seen x hx
      simp only [keepFirstAux] at hx
      cases hcy : seen.contains y with
      | true =>
          rw [if_pos hcy] at hx
          exact ih seen x hx
      | false =>
          rw [if_neg (by simp only [hcy]; exact Bool.false_ne_true)] at hx
          rcases List.mem_cons.mp hx with rfl | hx
          · intro hm
            rw [(contains_true_iff seen x).mpr hm] at hcy
            simp at hcy
          · intro hm
            have := ih (y :: seen) x hx
            exact this (by simp [hm])

/-- The keys kept by `keepFirstAux` are pairwise distinct. -/
lemma keepFirstAux_nodup : ∀ (l : List String) (seen : List String),
    (keepFirstAux seen l).Nodup := by
  intro l
  induction l with
  | nil => intro seen; simp [keepFirstAux]
  | cons y ys ih =>
      intro seen
      simp only [keepFirstAux]
      cases hcy : seen.contains y with
      | true => rw [if_pos rfl]; exact ih seen
      | false =>
          rw [if_neg Bool.false_ne_true]
          refine List.nodup_cons.mpr ⟨?_, ih (y :: seen)⟩
          intro hy
          exact keepFirstAux_not_seen ys (y :: seen) y hy (by simp)

/-- The orderIds written by the transform loop, starting from an
arbitrary seen set, are exactly the first-occurrence filter of the
orderIds of the records long enough to be unpacked. -/
lemma transformLoop_ids : ∀ (rows : List (List String)) (seen : List String)
    (outs : List OutRow), transformLoop seen rows = Except.ok outs →
    outs.map OutRow.orderId =
      keepFirstAux seen (((rows.filter (fun r => 14 ≤ r.length)).map (fun r => r.getD 6 ""))) := by
  intro rows
  induction rows with
  | nil =>
      intro seen outs h
      simp only [transformLoop, Except.ok.injEq] at h
      subst h
      simp [keepFirstAux]
  | cons r rest ih =>
      intro seen outs h
      rcases hp : processRow seen r with ⟨out1, s1⟩
      cases out1 with
      | skip =>
          obtain ⟨hseq, hcase⟩ := processRow_skip_elim seen r s1 hp
          subst hseq
          simp only [transformLoop, hp] at h
          have hrec := ih s1 outs h
          rcases hcase with hshort | ⟨hlen, hcb⟩
          · have hnle : ¬ (14 ≤ r.length) := by omega
            simpa [List.filter_cons, hnle] using hrec
          · have hle : 14 ≤ r.length := by omega
            have hfil : List.filter (fun r => 14 ≤ r.length) (r :: rest) =
                r :: List.filter (fun r => 14 ≤ r.length) rest := by
              simp [List.filter_cons, hle]
            rw [hrec, hfil, List.map_cons]
            simp only [keepFirstAux]
            rw [if_pos hcb]
      | fatal e =>
          simp only [transformLoop, hp] at h
          exact absurd h (by simp)
      | ok o =>
          obtain ⟨u, p, c, rv, tc, tp, d1, d2, _, _, _, _, _, _, _, _, _, hlen, hcb, hs1, ho⟩ :=
            processRow_ok_inversion seen r o s1 hp
          simp only [transformLoop, hp] at h
          cases hrest : transformLoop s1 rest with
          | error e => rw [hrest] at h; exact absurd h (by simp [Except.map])
          | ok outs' =>
              rw [hrest] at h
              simp only [Except.map, Except.ok.injEq] at h
              subst h
              have hrec := ih s1 outs' hrest
              have hle : 14 ≤ r.length := by omega
              have hfil : List.filter (fun r => 14 ≤ r.length) (r :: rest) =
                  r :: List.filter (fun r => 14 ≤ r.length) rest := by
                simp [List.filter_cons, hle]
              rw [hfil, List.map_cons, List.map_cons]
              simp only [keepFirstAux]
              rw [if_neg (by simp only [hcb]; exact Bool.false_ne_true)]
              rw [hrec, hs1]
              simp [ho]

/-! ## Helper lemmas: load stage -/

/-- A blank record is passed over before `rows_read` is incremented. -/
lemma loadLoop_blank (r : LoadRow) (rest : List LoadRow) (batch : List SalesRec)
    (rr ins : Nat) (h : loadRowBlank r = true) :
    loadLoop (r :: rest) batch rr ins = loadLoop rest batch rr ins := by
  simp [loadLoop, h]

/-- A non-blank record that is skipped (empty Order ID) or whose
extraction raises (caught per-row) is counted in `rows_read` and
nothing else changes. -/
lemma loadLoop_skip (r : LoadRow) (rest : List LoadRow) (batch : List SalesRec)
    (rr ins : Nat) (hb : loadRowBlank r = false) (hp : parseLoadRow r = none) :
    loadLoop (r :: rest) batch rr ins = loadLoop rest batch (rr + 1) ins := by
  simp [loadLoop, hb, hp]

/-- An empty-after-strip Order ID always fails extraction. -/
lemma parseLoadRow_empty_id (r : LoadRow) (h : pyStrip r.orderId = "") :
    parseLoadRow r = none := by
  simp [parseLoadRow, h]

/-- Step equation: a valid record that fills the batch triggers the
in-loop insert and commit with exactly that batch. -/
lemma loadLoop_step_full (r : LoadRow) (rest : List LoadRow) (batch : List SalesRec)
    (rr ins : Nat) (rec : SalesRec) (hb : loadRowBlank r = false)
    (hp : parseLoadRow r = some rec) (hfull : 1000 ≤ (batch ++ [rec]).length) :
    loadLoop (r :: rest) batch rr ins =
      ((loadLoop rest [] (rr + 1) (ins + (batch ++ [rec]).length)).1,
       (loadLoop rest [] (rr + 1) (ins + (batch ++ [rec]).length)).2.1,
       (batch ++ [rec]) :: (loadLoop rest [] (rr + 1) (ins + (batch ++ [rec]).length)).2.2.1,
       (loadLoop rest [] (rr + 1) (ins + (batch ++ [rec]).length)).2.2.2) := by
  simp only [List.length_append, List.length_cons, List.length_nil] at hfull
  simp [loadLoop, hb, hp, hfull]

/-- Step equation: a valid record that does not fill the batch is just
appended to it. -/
lemma loadLoop_step_acc (r : LoadRow) (rest : List LoadRow) (batch : List SalesRec)
    (rr ins : Nat) (rec : SalesRec) (hb : loadRowBlank r = false)
    (hp : parseLoadRow r = some rec) (hnf : ¬ 1000 ≤ (batch ++ [rec]).length) :
    loadLoop (r :: rest) batch rr ins = loadLoop rest (batch ++ [rec]) (rr + 1) ins := by
  simp only [List.length_append, List.length_cons, List.length_nil] at hnf
  simp [loadLoop, hb, hp, hnf]

/-- Counting invariant of the load loop: the rows inserted so far plus
the rows pending in the batch never exceed the rows read. -/
lemma loadLoop_le : ∀ (rows : List LoadRow) (batch : List SalesRec) (rr ins : Nat),
    ins + batch.length ≤ rr →
    (loadLoop rows batch rr ins).2.1 + ((loadLoop rows batch rr ins).2.2.2).length ≤
      (loadLoop rows batch rr ins).1 := by
  intro rows
  induction rows with
  | nil => intro batch rr ins h; simpa [loadLoop] using h
  | cons r rest ih =>
      intro batch rr ins h
      cases hbe : loadRowBlank r with
      | true => rw [loadLoop_blank r rest batch rr ins hbe]; exact ih batch rr ins h
      | false =>
          cases hpe : parseLoadRow r with
          | none =>
              rw [loadLoop_skip r rest batch rr ins hbe hpe]
              exact ih batch (rr + 1) ins (by omega)
          | some rec =>
              have hlb : (batch ++ [rec]).length = batch.length + 1 := by simp
              by_cases hfull : 1000 ≤ (batch ++ [rec]).length
              · rw [loadLoop_step_full r rest batch rr ins rec hbe hpe hfull]
                dsimp only
                exact ih [] (rr + 1) (ins + (batch ++ [rec]).length)
                  (by simp only [List.length_nil]; omega)
              · rw [loadLoop_step_acc r rest batch rr ins rec hbe hpe hfull]
                exact ih (batch ++ [rec]) (rr + 1) ins (by omega)

/-- Characterization of the load loop on valid records: every record is
read, commits happen exactly at multiples of 1000, and the leftover
batch holds the remainder. -/
lemma loadLoop_valid : ∀ (rows : List LoadRow) (batch : List SalesRec) (rr ins : Nat),
    (∀ r ∈ rows, loadRowValid r = true) → batch.length < 1000 →
    (loadLoop rows batch rr ins).1 = rr + rows.length ∧
    (loadLoop rows batch rr ins).2.1 = ins + 1000 * ((batch.length + rows.length) / 1000) ∧
    ((loadLoop rows batch rr ins).2.2.1).map List.length =
      List.replicate ((batch.length + rows.length) / 1000) 1000 ∧
    ((loadLoop rows batch rr ins).2.2.2).length = (batch.length + rows.length) % 1000 := by
  intro rows
  induction rows with
  | nil =>
      intro batch rr ins _ hlt
      refine ⟨by simp [loadLoop], ?_, ?_, ?_⟩
      · simp only [loadLoop, List.length_nil]; omega
      · have h0 : batch.length / 1000 = 0 := by omega
        simp [loadLoop, h0]
      · simp only [loadLoop, List.length_nil]; omega
  | cons r rest ih =>
      intro batch rr ins hv hlt
      have hrest : ∀ x ∈ rest, loadRowValid x = true := fun x hx => hv x (by simp [hx])
      have hr := hv r (by simp)
      simp only [loadRowValid, Bool.and_eq_true, Bool.not_eq_true'] at hr
      obtain ⟨hb, hps⟩ := hr
      obtain ⟨rec, hrec⟩ := Option.isSome_iff_exists.mp hps
      have hlb : (batch ++ [rec]).length = batch.length + 1 := by simp
      by_cases hfull : 1000 ≤ (batch ++ [rec]).length
      · rw [loadLoop_step_full r rest batch rr ins rec hb hrec hfull]
        dsimp only
        obtain ⟨ih1, ih2, ih3, ih4⟩ :=
          ih [] (rr + 1) (ins + (batch ++ [rec]).length) hrest (by simp)
        rw [hlb] at ih1 ih2 ih3 ih4 ⊢
        refine ⟨?_, ?_, ?_, ?_⟩
        · rw [ih1]; simp only [List.length_cons]; omega
        · rw [ih2]; simp only [List.length_nil, List.length_cons]; omega
        · rw [List.map_cons, ih3, hlb]
          have h1000 : batch.length + 1 = 1000 := by omega
          have hq : (batch.length + (r :: rest).length) / 1000 = rest.length / 1000 + 1 := by
            simp only [List.length_cons]; omega
          have hz : (List.length ([] : List SalesRec) + rest.length) / 1000 =
              rest.length / 1000 := by simp
          rw [h1000, hq, hz, List.replicate_succ]
        · rw [ih4]; simp only [List.length_nil, List.length_cons]; omega
      · rw [loadLoop_step_acc r rest batch rr ins rec hb hrec hfull]
        obtain ⟨ih1, ih2, ih3, ih4⟩ := ih (batch ++ [rec]) (rr + 1) ins hrest (by omega)
        rw [hlb] at ih2 ih3 ih4
        refine ⟨?_, ?_, ?_, ?_⟩
        · rw [ih1]; simp only [List.length_cons]; omega
        · rw [ih2]; simp only [List.length_cons]; omega
        · rw [ih3]
          have hq : (batch.length + 1 + rest.length) / 1000 =
              (batch.length + (r :: rest).length) / 1000 := by
            simp only [List.length_cons]; omega
          rw [hq]
        · rw [ih4]; simp only [List.length_cons]; omega

/-- Applying committed batches to a database with no open transaction
appends their rows to the committed contents. -/
lemma foldl_applyBatch : ∀ (mids : List (List SalesRec)) (c : List SalesRec),
    mids.foldl applyBatch { committed := c, pending := [] } =
      { committed := c ++ mids.flatten, pending := [] } := by
  intro mids
  induction mids with
  | nil => intro c; simp
  | cons b bs ih =>
      intro c
      simp only [List.foldl_cons]
      rw [show applyBatch { committed := c, pending := [] } b =
            { committed := c ++ b, pending := [] } from by
          simp [applyBatch, dbCommit, dbInsert]]
      rw [ih (c ++ b)]
      simp

/-! ## Concrete coercion facts -/

/-- Python `int("10")`. -/
lemma parseInt_10 : parsePyInt "10" = some 10 := rfl

/-- Python `float("2.5")`. -/
lemma parseFloat_25 : parsePyFloat "2.5" = some (5/2) := by
  rw [show parsePyFloat "2.5" =
      some (((1 : Int) : ℚ) * ((25 : Nat) : ℚ) / (10 : ℚ) ^ (1 : Nat)) from rfl]
  norm_num

/-- Python `float("1.0")`. -/
lemma parseFloat_1 : parsePyFloat "1.0" = some 1 := by
  rw [show parsePyFloat "1.0" =
      some (((1 : Int) : ℚ) * ((10 : Nat) : ℚ) / (10 : ℚ) ^ (1 : Nat)) from rfl]
  norm_num

/-- Python `float("200.0")`. -/
lemma parseFloat_200 : parsePyFloat "200.0" = some 200 := by
  rw [show parsePyFloat "200.0" =
      some (((1 : Int) : ℚ) * ((2000 : Nat) : ℚ) / (10 : ℚ) ^ (1 : Nat)) from rfl]
  norm_num

/-- Python `float("50.0")`. -/
lemma parseFloat_50 : parsePyFloat "50.0" = some 50 := by
  rw [show parsePyFloat "50.0" =
      some (((1 : Int) : ℚ) * ((500 : Nat) : ℚ) / (10 : ℚ) ^ (1 : Nat)) from rfl]
  norm_num

/-- Python `float("0")`. -/
lemma parseFloat_0 : parsePyFloat "0" = some 0 := by
  rw [show parsePyFloat "0" = some ((((1 : Int) * ((0 : Nat) : Int) : Int)) : ℚ) from rfl]
  norm_num

/-- Python `strptime("1/1/2020", "%m/%d/%Y")`. -/
lemma parseDate_11 : parsePyDate "1/1/2020" = some ⟨2020, 1, 1⟩ := rfl

/-- Python `strptime("1/5/2020", "%m/%d/%Y")`. -/
lemma parseDate_15 : parsePyDate "1/5/2020" = some ⟨2020, 1, 5⟩ := rfl

/-- The sample record satisfies every coercion. -/
lemma rowWellFormed_sample : rowWellFormed sampleRawRow = true := by
  simp only [rowWellFormed, sampleRawRow, List.getD_cons_zero, List.getD_cons_succ,
    parseInt_10, parseFloat_25, parseFloat_1, parseFloat_200, parseFloat_50,
    parseDate_11, parseDate_15, Option.isSome_some, List.length_cons, List.length_nil]
  norm_num

/-- Full evaluation of the per-row body on the sample record. -/
lemma processRow_sample :
    processRow [] sampleRawRow = (RowOutcome.ok sampleOutRow, ["1"]) := by
  have h := processRow_ok_of_parses "a" "b" "c" "d" "H" "1/1/2020" "1" "1/5/2020"
    "10" "2.5" "1.0" "200.0" "1.0" "50.0" 10 (5/2) 1 200 1 50 ⟨2020, 1, 1⟩ ⟨2020, 1, 5⟩ []
    parseInt_10 parseFloat_25 parseFloat_1 parseFloat_200 parseFloat_1 parseFloat_50
    parseDate_11 parseDate_15 (by norm_num) (by simp)
  refine h.trans ?_
  have hpri : translatePriority "H" = "High" := rfl
  have htime : (toOrdinal ⟨2020, 1, 5⟩ : Int) - (toOrdinal ⟨2020, 1, 1⟩ : Int) = 4 := rfl
  rw [hpri, htime, sampleOutRow]
  norm_num

/-- Full evaluation of the per-row body on the empty-orderId record. -/
lemma processRow_emptyId :
    processRow [] emptyIdRawRow = (RowOutcome.ok emptyIdOutRow, [""]) := by
  have h := processRow_ok_of_parses "a" "b" "c" "d" "H" "1/1/2020" "" "1/5/2020"
    "10" "2.5" "1.0" "200.0" "1.0" "50.0" 10 (5/2) 1 200 1 50 ⟨2020, 1, 1⟩ ⟨2020, 1, 5⟩ []
    parseInt_10 parseFloat_25 parseFloat_1 parseFloat_200 parseFloat_1 parseFloat_50
    parseDate_11 parseDate_15 (by norm_num) (by simp)
  refine h.trans ?_
  have hpri : translatePriority "H" = "High" := rfl
  have htime : (toOrdinal ⟨2020, 1, 5⟩ : Int) - (toOrdinal ⟨2020, 1, 1⟩ : Int) = 4 := rfl
  rw [hpri, htime, emptyIdOutRow]
  norm_num

/-- The per-row body raises `ZeroDivisionError` on a zero-revenue record
whose other fields are well-formed. -/
lemma processRow_zero_of_parses
    (a0 a1 a2 a3 a4 a5 a6 a7 a8 a9 a10 a12 a13 : String)
    (u : Int) (p c tc tp : ℚ) (d1 d2 : PyDate) (seen : List String)
    (h1 : parsePyInt a8 = some u) (h2 : parsePyFloat a9 = some p)
    (h3 : parsePyFloat a10 = some c) (h5 : parsePyFloat a12 = some tc)
    (h6 : parsePyFloat a13 = some tp)
    (h7 : parsePyDate a5 = some d1) (h8 : parsePyDate a7 = some d2)
    (hseen : a6 ∉ seen) :
    processRow seen [a0, a1, a2, a3, a4, a5, a6, a7, a8, a9, a10, "0", a12, a13] =
      (RowOutcome.fatal "division by zero", a6 :: seen) := by
  simp [processRow, h1, h2, h3, parseFloat_0, h5, h6, h7, h8, hseen]

/-! ## Claim theorems: transform stage -/

/-- C1 (counterexample): a 14-field row whose totalRevenue is `0` does
not merely drop the row — the uncaught `ZeroDivisionError` of line 86
of `TransformCSV.py` terminates the whole run, so the claim that such a
failure only excludes the row and "never terminates the run" is false
on this input. -/
theorem transform_zero_revenue_aborts_run :
    transformRun [zeroRevenueRow] = Except.error "division by zero" := by
  have h := processRow_zero_of_parses "a" "b" "c" "d" "H" "1/1/2020" "1" "1/5/2020"
    "10" "2.5" "1.0" "1.0" "50.0" 10 (5/2) 1 1 50 ⟨2020, 1, 1⟩ ⟨2020, 1, 5⟩ []
    parseInt_10 parseFloat_25 parseFloat_1 parseFloat_1 parseFloat_50
    parseDate_11 parseDate_15 (by simp)
  have hl : transformLoop [] [zeroRevenueRow] = Except.error "division by zero" := by
    rw [show (zeroRevenueRow : List String) =
        ["a", "b", "c", "d", "H", "1/1/2020", "1", "1/5/2020",
         "10", "2.5", "1.0", "0", "1.0", "50.0"] from rfl]
    simp only [transformLoop, h]
  unfold transformRun
  rw [hl]
  rfl

/-- C1 (amended): per-row anomalies of the two recoverable kinds — a
record of fewer than 14 fields, or a duplicate orderId — only exclude
that row and never terminate the transform run: a run all of whose
records are short or fully well-formed (duplicates allowed freely)
always completes successfully.  (Coercion failures, date mismatches,
more than 14 fields, and a zero totalRevenue instead abort the run, as
the counterexample shows.) -/
theorem transform_run_completes_on_recoverable_rows (rows : List (List String))
    (h : ∀ r ∈ rows, r.length < 14 ∨ rowWellFormed r = true) :
    ∃ res, transformRun rows = Except.ok res := by
  obtain ⟨outs, ho⟩ := transformLoop_ok_of_recoverable rows [] h
  exact ⟨_, by unfold transformRun; rw [ho]; rfl⟩

/-- C1 (witness): a run containing a short record, a well-formed record,
and a duplicate of that record completes. -/
theorem transform_run_completes_witness :
    (∀ r ∈ [["short"], sampleRawRow, sampleRawRow],
        r.length < 14 ∨ rowWellFormed r = true) ∧
    (∃ res, transformRun [["short"], sampleRawRow, sampleRawRow] = Except.ok res) := by
  have hhyp : ∀ r ∈ [["short"], sampleRawRow, sampleRawRow],
      r.length < 14 ∨ rowWellFormed r = true := by
    intro r hr
    simp only [List.mem_cons, List.not_mem_nil, or_false] at hr
    rcases hr with rfl | rfl | rfl
    · exact Or.inl (by decide)
    · exact Or.inr rowWellFormed_sample
    · exact Or.inr rowWellFormed_sample
  exact ⟨hhyp, transform_run_completes_on_recoverable_rows _ hhyp⟩

/-- C2 (counterexample): a row with more than 14 fields (here, 15 fields
whose first 14 are perfectly well-formed with a non-empty orderId) does
not produce a SalesRow: the tuple unpacking of lines 51-56 raises
`ValueError` and the whole run fails. -/
theorem transform_fifteen_fields_aborts_run :
    transformRun [sampleRawRow ++ ["x"]] = Except.error "too many values to unpack" := by rfl

/-- C2 (amended): for every input row with exactly 14 fields, non-empty
orderId, well-formed numeric fields, well-formed MM/DD/YYYY dates, and
nonzero totalRevenue, the parser produces an output row whose fields
exactly match the input after type coercion and priority-code
translation (L→Low, M→Medium, H→High, C→Critical, others unchanged);
rows with fewer than 14 fields are discarded silently, and a run of
only such rows still completes with an empty result.  (Rows with more
than 14 fields, by contrast, abort the run.) -/
theorem rowparser_exact_on_14_fields :
    (∀ (a0 a1 a2 a3 a4 a5 a6 a7 a8 a9 a10 a11 a12 a13 : String)
        (u : Int) (p c rv tc tp : ℚ) (d1 d2 : PyDate),
        parsePyInt a8 = some u → parsePyFloat a9 = some p → parsePyFloat a10 = some c →
        parsePyFloat a11 = some rv → parsePyFloat a12 = some tc →
        parsePyFloat a13 = some tp → parsePyDate a5 = some d1 → parsePyDate a7 = some d2 →
        rv ≠ 0 → pyStrip a6 ≠ "" →
        processRow [] [a0, a1, a2, a3, a4, a5, a6, a7, a8, a9, a10, a11, a12, a13] =
          (RowOutcome.ok
            { region := a0, country := a1, itemType := a2, salesChannel := a3,
              orderPriority :=
                (if a4 = "L" then "Low" else if a4 = "M" then "Medium"
                 else if a4 = "H" then "High" else if a4 = "C" then "Critical" else a4),
              orderDateStr := a5, orderId := a6, shipDateStr := a7, unitsSold := u,
              unitPrice := p, unitCost := c, totalRevenue := rv, totalCost := tc,
              totalProfit := tp,
              orderProcessingTime := (toOrdinal d2 : Int) - (toOrdinal d1 : Int),
              grossMargin := tp / rv, orderValue := (u : ℚ) * p }, [a6])) ∧
    (∀ (seen : List String) (row : List String), row.length < 14 →
        processRow seen row = (RowOutcome.skip, seen)) ∧
    (∀ rows : List (List String), (∀ r ∈ rows, r.length < 14) →
        transformRun rows = Except.ok
          { rows := [], rowsTransformed := 0, sumRevenue := 0, sumProfit := 0,
            avgRevenue := 0, avgProfit := 0 }) := by
  refine ⟨?_, processRow_short, ?_⟩
  · intro a0 a1 a2 a3 a4 a5 a6 a7 a8 a9 a10 a11 a12 a13 u p c rv tc tp d1 d2
      h1 h2 h3 h4 h5 h6 h7 h8 h9 _
    have h := processRow_ok_of_parses a0 a1 a2 a3 a4 a5 a6 a7 a8 a9 a10 a11 a12 a13
      u p c rv tc tp d1 d2 [] h1 h2 h3 h4 h5 h6 h7 h8 h9 (by simp)
    rw [translatePriority_eq] at h
    exact h
  · intro rows h
    unfold transformRun
    rw [transformLoop_all_short rows [] h]
    rfl

/-- C2 (witness): the exact-match property, the silent short-row skip,
and the empty run result, all at concrete inputs. -/
theorem rowparser_exact_witness :
    processRow [] sampleRawRow = (RowOutcome.ok sampleOutRow, ["1"]) ∧
    processRow [] [] = (RowOutcome.skip, []) ∧
    transformRun [["short"]] = Except.ok
      { rows := [], rowsTransformed := 0, sumRevenue := 0, sumProfit := 0,
        avgRevenue := 0, avgProfit := 0 } :=
  ⟨processRow_sample, rowparser_exact_on_14_fields.2.1 [] [] (by decide),
   rowparser_exact_on_14_fields.2.2 [["short"]] (by decide)⟩

/-- C7 (counterexample): a well-formed 14-field row whose orderId field
is empty is not rejected by the transform — it is written to the output
and counted in the metrics (the transform code never inspects the
orderId beyond the duplicate check), contradicting the claim that such
a row is excluded from output and metrics. -/
theorem transform_retains_empty_order_id :
    (transformRun [emptyIdRawRow]).map
        (fun t => (t.rowsTransformed, t.rows.map OutRow.orderId)) =
      Except.ok (1, [""]) := by
  have hl : transformLoop [] [emptyIdRawRow] = Except.ok [emptyIdOutRow] := by
    simp only [transformLoop, processRow_emptyId]
    rfl
  unfold transformRun
  rw [hl]
  rfl

/-- C7 (amended): the transform applies no missing-key check: a 14-field
record with well-formed numeric and date fields and nonzero revenue is
parsed and retained even when its orderId is empty after trimming
whitespace; the empty orderId participates in deduplication like any
other value.  (It is the load stage, separately, that skips rows with
an empty Order ID.) -/
theorem transform_accepts_empty_order_id
    (a0 a1 a2 a3 a4 a5 a6 a7 a8 a9 a10 a11 a12 a13 : String)
    (u : Int) (p c rv tc tp : ℚ) (d1 d2 : PyDate)
    (h1 : parsePyInt a8 = some u) (h2 : parsePyFloat a9 = some p)
    (h3 : parsePyFloat a10 = some c) (h4 : parsePyFloat a11 = some rv)
    (h5 : parsePyFloat a12 = some tc) (h6 : parsePyFloat a13 = some tp)
    (h7 : parsePyDate a5 = some d1) (h8 : parsePyDate a7 = some d2)
    (h9 : rv ≠ 0) (hid : pyStrip a6 = "") :
    processRow [] [a0, a1, a2, a3, a4, a5, a6, a7, a8, a9, a10, a11, a12, a13] =
      (RowOutcome.ok
        { region := a0, country := a1, itemType := a2, salesChannel := a3,
          orderPriority := translatePriority a4, orderDateStr := a5, orderId := a6,
          shipDateStr := a7, unitsSold := u, unitPrice := p, unitCost := c,
          totalRevenue := rv, totalCost := tc, totalProfit := tp,
          orderProcessingTime := (toOrdinal d2 : Int) - (toOrdinal d1 : Int),
          grossMargin := tp / rv, orderValue := (u : ℚ) * p }, [a6]) :=
  processRow_ok_of_parses a0 a1 a2 a3 a4 a5 a6 a7 a8 a9 a10 a11 a12 a13
    u p c rv tc tp d1 d2 [] h1 h2 h3 h4 h5 h6 h7 h8 h9 (by simp)

/-- C7 (witness): the empty-orderId record is parsed and retained. -/
theorem transform_accepts_empty_order_id_witness :
    processRow [] emptyIdRawRow = (RowOutcome.ok emptyIdOutRow, [""]) := by
  have h := transform_accepts_empty_order_id "a" "b" "c" "d" "H" "1/1/2020" "" "1/5/2020"
    "10" "2.5" "1.0" "200.0" "1.0" "50.0" 10 (5/2) 1 200 1 50 ⟨2020, 1, 1⟩ ⟨2020, 1, 5⟩
    parseInt_10 parseFloat_25 parseFloat_1 parseFloat_200 parseFloat_1 parseFloat_50
    parseDate_11 parseDate_15 (by norm_num) (by decide)
  refine h.trans ?_
  have hpri : translatePriority "H" = "High" := rfl
  have htime : (toOrdinal ⟨2020, 1, 5⟩ : Int) - (toOrdinal ⟨2020, 1, 1⟩ : Int) = 4 := rfl
  rw [hpri, htime, emptyIdOutRow]
  norm_num

/-- C8: for every successfully parsed row the enricher computes exactly
grossMargin = totalProfit / totalRevenue, orderValue = unitsSold ×
unitPrice, and orderProcessingTime = the whole-day ordinal difference
shipDate − orderDate (negative values preserved by construction in ℤ);
and on the concrete row with orderDate 1/1/2020, shipDate 1/5/2020,
totalProfit 50.0, totalRevenue 200.0, unitsSold 10, unitPrice 2.5 the
derived values are 4, 0.25 and 25.0. -/
theorem enrichment_formulas :
    (∀ (seen s' : List String) (row : List String) (o : OutRow),
        processRow seen row = (RowOutcome.ok o, s') →
        o.grossMargin = o.totalProfit / o.totalRevenue ∧
        o.orderValue = (o.unitsSold : ℚ) * o.unitPrice ∧
        ∃ d1 d2, parsePyDate o.orderDateStr = some d1 ∧
          parsePyDate o.shipDateStr = some d2 ∧
          o.orderProcessingTime = (toOrdinal d2 : Int) - (toOrdinal d1 : Int)) ∧
    ((transformRun [sampleRawRow]).map
        (fun t => t.rows.map (fun o => (o.orderProcessingTime, o.grossMargin, o.orderValue))) =
      Except.ok [((4 : Int), (1/4 : ℚ), (25 : ℚ))]) := by
  constructor
  · intro seen s' row o h
    obtain ⟨u, p, c, rv, tc, tp, d1, d2, _, _, _, _, _, _, hd5, hd7, _, _, _, _, ho⟩ :=
      processRow_ok_inversion seen row o s' h
    subst ho
    exact ⟨rfl, rfl, d1, d2, hd5, hd7, rfl⟩
  · have hl : transformLoop [] [sampleRawRow] = Except.ok [sampleOutRow] := by
      simp only [transformLoop, processRow_sample]
      rfl
    unfold transformRun
    rw [hl]
    rfl

/-- C8 (witness): the enrichment formulas instantiated on the concrete
sample row. -/
theorem enrichment_formulas_witness :
    processRow [] sampleRawRow = (RowOutcome.ok sampleOutRow, ["1"]) ∧
    (sampleOutRow.grossMargin = sampleOutRow.totalProfit / sampleOutRow.totalRevenue ∧
     sampleOutRow.orderValue = (sampleOutRow.unitsSold : ℚ) * sampleOutRow.unitPrice ∧
     ∃ d1 d2, parsePyDate sampleOutRow.orderDateStr = some d1 ∧
       parsePyDate sampleOutRow.shipDateStr = some d2 ∧
       sampleOutRow.orderProcessingTime = (toOrdinal d2 : Int) - (toOrdinal d1 : Int)) :=
  ⟨processRow_sample, enrichment_formulas.1 [] ["1"] sampleRawRow sampleOutRow processRow_sample⟩

/-- C9: in every successful transform run, avgRevenue and avgProfit are
the defined value 0 when rowsTransformed = 0 (no divide fault), and
otherwise equal the sum of totalRevenue (respectively totalProfit) over
the retained rows divided by rowsTransformed. -/
theorem metrics_average_definition (rows : List (List String)) (res : TransformResult)
    (h : transformRun rows = Except.ok res) :
    (res.rowsTransformed = 0 → res.avgRevenue = 0 ∧ res.avgProfit = 0) ∧
    (res.rowsTransformed ≠ 0 →
      res.avgRevenue = (res.rows.map OutRow.totalRevenue).sum / (res.rowsTransformed : ℚ) ∧
      res.avgProfit = (res.rows.map OutRow.totalProfit).sum / (res.rowsTransformed : ℚ)) := by
  obtain ⟨outs, _, rfl⟩ := transformRun_ok_elim rows res h
  dsimp only
  constructor
  · intro h0
    rw [if_pos h0, if_pos h0]
    exact ⟨rfl, rfl⟩
  · intro h0
    rw [if_neg h0, if_neg h0]
    exact ⟨rfl, rfl⟩

/-- C9 (witness): a run with no data rows reports zero averages rather
than faulting. -/
theorem metrics_average_witness :
    transformRun [] = Except.ok
      { rows := [], rowsTransformed := 0, sumRevenue := 0, sumProfit := 0,
        avgRevenue := 0, avgProfit := 0 } ∧
    (({ rows := [], rowsTransformed := 0, sumRevenue := 0, sumProfit := 0,
        avgRevenue := 0, avgProfit := 0 } : TransformResult).avgRevenue = 0 ∧
     ({ rows := [], rowsTransformed := 0, sumRevenue := 0, sumProfit := 0,
        avgRevenue := 0, avgProfit := 0 } : TransformResult).avgProfit = 0) := by
  have hrun : transformRun [] = Except.ok
      { rows := [], rowsTransformed := 0, sumRevenue := 0, sumProfit := 0,
        avgRevenue := 0, avgProfit := 0 } := by rfl
  exact ⟨hrun, (metrics_average_definition [] _ hrun).1 rfl⟩

/-- C5: in every successful transform run, the orderIds of the retained
rows are exactly the first occurrences of the orderIds of the records
long enough to be unpacked — later occurrences are dropped, the
retained ids are pairwise distinct, the metrics count exactly the
retained rows, and the seen set starts empty (a 14-field first record
is never dropped as a duplicate). -/
theorem dedup_first_occurrence (rows : List (List String)) (res : TransformResult)
    (h : transformRun rows = Except.ok res) :
    res.rows.map OutRow.orderId =
      keepFirstOccurrences
        ((rows.filter (fun r => 14 ≤ r.length)).map (fun r => r.getD 6 "")) ∧
    (res.rows.map OutRow.orderId).Nodup ∧
    res.rowsTransformed = res.rows.length ∧
    (∀ row : List String, row.length = 14 → (processRow [] row).1 ≠ RowOutcome.skip) := by
  obtain ⟨outs, ho, rfl⟩ := transformRun_ok_elim rows res h
  refine ⟨?_, ?_, rfl, ?_⟩
  · exact transformLoop_ids rows [] outs ho
  · dsimp only
    rw [transformLoop_ids rows [] outs ho]
    exact keepFirstAux_nodup _ _
  · intro row hlen hskip
    rcases hp : processRow [] row with ⟨o1, s1⟩
    rw [hp] at hskip
    dsimp only at hskip
    subst hskip
    obtain ⟨_, hcase⟩ := processRow_skip_elim [] row s1 hp
    rcases hcase with hshort | ⟨_, hcb⟩
    · omega
    · simp at hcb

/-- C5 (witness): a run with a duplicate orderId retains only the first
occurrence. -/
theorem dedup_first_occurrence_witness :
    transformRun [sampleRawRow, dupIdRawRow] = Except.ok sampleTransformResult ∧
    sampleTransformResult.rows.map OutRow.orderId =
      keepFirstOccurrences
        ((([sampleRawRow, dupIdRawRow].filter (fun r => 14 ≤ r.length)).map
          (fun r => r.getD 6 ""))) := by
  have hd : processRow ["1"] dupIdRawRow = (RowOutcome.skip, ["1"]) :=
    processRow_dup ["1"] dupIdRawRow (by rfl) (by rfl)
  have hl : transformLoop [] [sampleRawRow, dupIdRawRow] = Except.ok [sampleOutRow] := by
    simp only [transformLoop, processRow_sample, hd]
    rfl
  have hrun : transformRun [sampleRawRow, dupIdRawRow] = Except.ok sampleTransformResult := by
    unfold transformRun
    rw [hl]
    show Except.ok _ = Except.ok sampleTransformResult
    rw [sampleTransformResult]
    norm_num [sampleOutRow]
  exact ⟨hrun, (dedup_first_occurrence [sampleRawRow, dupIdRawRow]
    sampleTransformResult hrun).1⟩

/-- Taking the first five trace events ignores anything after the read. -/
lemma trace_take5 (t : List DBEvent) :
    (([DBEvent.createTable, DBEvent.commitDDL, DBEvent.truncateTable,
       DBEvent.commitTruncate, DBEvent.readObject] ++ t).take 5) =
      [DBEvent.createTable, DBEvent.commitDDL, DBEvent.truncateTable,
       DBEvent.commitTruncate, DBEvent.readObject] := rfl

/-- Evaluation of the load handler when the S3 read raises: the table
has already been truncated and committed, so it ends up empty. -/
lemma handler_eval_failRead (init : List SalesRec) (csv : List LoadRow) :
    lambda_handler_load init csv LoadFail.failAtRead =
      { ok := false, rowsRead := 0, rowsInserted := 0, commits := [],
        db := { committed := [], pending := [] },
        trace := [DBEvent.createTable, DBEvent.commitDDL, DBEvent.truncateTable,
                  DBEvent.commitTruncate, DBEvent.readObject, DBEvent.rollback] } := by
  simp [lambda_handler_load, dbCommit, dbTruncate, dbRollback]

/-- Evaluation of the load handler when the loop leaves no partial
batch: all commits happened inside the loop. -/
lemma handler_eval_nil (init : List SalesRec) (csv : List LoadRow)
    (rr ins : Nat) (mids : List (List SalesRec)) (f : LoadFail)
    (hout : loadLoop csv [] 0 0 = (rr, ins, mids, []))
    (hf : f ≠ LoadFail.failAtRead) :
    lambda_handler_load init csv f =
      { ok := true, rowsRead := rr, rowsInserted := ins, commits := mids,
        db := { committed := mids.flatten, pending := [] },
        trace := [DBEvent.createTable, DBEvent.commitDDL, DBEvent.truncateTable,
                  DBEvent.commitTruncate, DBEvent.readObject] ++
          mids.flatMap (fun b => [DBEvent.insertRows b, DBEvent.commitBatch]) } := by
  have hdb : dbCommit (dbTruncate (dbCommit { committed := init, pending := [] })) =
      { committed := [], pending := [] } := by simp [dbCommit, dbTruncate]
  cases f with
  | failAtRead => exact absurd rfl hf
  | noFail => simp [lambda_handler_load, hout, hdb, foldl_applyBatch]
  | failAtFinalFlush => simp [lambda_handler_load, hout, hdb, foldl_applyBatch]

/-- Evaluation of a fault-free load run with a leftover partial batch:
the final flush inserts and commits it. -/
lemma handler_eval_noFail_cons (init : List SalesRec) (csv : List LoadRow)
    (rr ins : Nat) (mids : List (List SalesRec)) (x : SalesRec) (xs : List SalesRec)
    (hout : loadLoop csv [] 0 0 = (rr, ins, mids, x :: xs)) :
    lambda_handler_load init csv LoadFail.noFail =
      { ok := true, rowsRead := rr, rowsInserted := ins + (x :: xs).length,
        commits := mids ++ [x :: xs],
        db := { committed := mids.flatten ++ (x :: xs), pending := [] },
        trace := [DBEvent.createTable, DBEvent.commitDDL, DBEvent.truncateTable,
                  DBEvent.commitTruncate, DBEvent.readObject] ++
          mids.flatMap (fun b => [DBEvent.insertRows b, DBEvent.commitBatch]) ++
          [DBEvent.insertRows (x :: xs), DBEvent.commitBatch] } := by
  have hdb : dbCommit (dbTruncate (dbCommit { committed := init, pending := [] })) =
      { committed := [], pending := [] } := by simp [dbCommit, dbTruncate]
  simp [lambda_handler_load, hout, hdb, foldl_applyBatch, dbCommit, dbTruncate, dbInsert]

/-- Evaluation of a load run whose final-flush commit raises: the
in-flight partial batch is rolled back, the batches committed inside
the loop stay committed. -/
lemma handler_eval_flush_cons (init : List SalesRec) (csv : List LoadRow)
    (rr ins : Nat) (mids : List (List SalesRec)) (x : SalesRec) (xs : List SalesRec)
    (hout : loadLoop csv [] 0 0 = (rr, ins, mids, x :: xs)) :
    lambda_handler_load init csv LoadFail.failAtFinalFlush =
      { ok := false, rowsRead := rr, rowsInserted := ins, commits := mids,
        db := { committed := mids.flatten, pending := [] },
        trace := [DBEvent.createTable, DBEvent.commitDDL, DBEvent.truncateTable,
                  DBEvent.commitTruncate, DBEvent.readObject] ++
          mids.flatMap (fun b => [DBEvent.insertRows b, DBEvent.commitBatch]) ++
          [DBEvent.insertRows (x :: xs), DBEvent.rollback] } := by
  have hdb : dbCommit (dbTruncate (dbCommit { committed := init, pending := [] })) =
      { committed := [], pending := [] } := by simp [dbCommit, dbTruncate]
  simp [lambda_handler_load, hout, hdb, foldl_applyBatch, dbRollback, dbTruncate, dbCommit, dbInsert]

/-! ## Claim theorems: load stage -/

/-- C3: in every load run the truncate of the table is executed and
committed before the read of the transformed input begins (the first
five externally visible steps are always create-table, commit,
truncate, commit, read); the run never leaves an open transaction; the
final database state is independent of the pre-truncate table contents
(they are never restored); and on the run-fatal final-flush failure
only the in-flight not-yet-committed batch is lost — the committed
state of the failed run is a prefix of the committed state of the
fault-free run. -/
theorem load_truncate_before_read (init : List SalesRec) (csv : List LoadRow)
    (f : LoadFail) :
    (lambda_handler_load init csv f).trace.take 5 =
      [DBEvent.createTable, DBEvent.commitDDL, DBEvent.truncateTable,
       DBEvent.commitTruncate, DBEvent.readObject] ∧
    (lambda_handler_load init csv f).db.pending = [] ∧
    (∀ init2, (lambda_handler_load init2 csv f).db = (lambda_handler_load init csv f).db) ∧
    (∃ rest, (lambda_handler_load init csv LoadFail.noFail).db.committed =
      (lambda_handler_load init csv LoadFail.failAtFinalFlush).db.committed ++ rest) := by
  rcases hout : loadLoop csv [] 0 0 with ⟨rr, ins, mids, lf⟩
  have hlast : ∃ rest, (lambda_handler_load init csv LoadFail.noFail).db.committed =
      (lambda_handler_load init csv LoadFail.failAtFinalFlush).db.committed ++ rest := by
    cases lf with
    | nil =>
        rw [handler_eval_nil init csv rr ins mids LoadFail.noFail hout (by decide),
          handler_eval_nil init csv rr ins mids LoadFail.failAtFinalFlush hout (by decide)]
        exact ⟨[], by simp⟩
    | cons x xs =>
        rw [handler_eval_noFail_cons init csv rr ins mids x xs hout,
          handler_eval_flush_cons init csv rr ins mids x xs hout]
        exact ⟨x :: xs, rfl⟩
  refine ⟨?_, ?_, ?_, hlast⟩
  · cases f with
    | failAtRead => rw [handler_eval_failRead]; rfl
    | noFail =>
        cases lf with
        | nil => rw [handler_eval_nil init csv rr ins mids _ hout (by decide)]; exact trace_take5 _
        | cons x xs =>
            rw [handler_eval_noFail_cons init csv rr ins mids x xs hout]
            dsimp only
            rw [List.append_assoc]
            exact trace_take5 _
    | failAtFinalFlush =>
        cases lf with
        | nil => rw [handler_eval_nil init csv rr ins mids _ hout (by decide)]; exact trace_take5 _
        | cons x xs =>
            rw [handler_eval_flush_cons init csv rr ins mids x xs hout]
            dsimp only
            rw [List.append_assoc]
            exact trace_take5 _
  · cases f with
    | failAtRead => rw [handler_eval_failRead]
    | noFail =>
        cases lf with
        | nil => rw [handler_eval_nil init csv rr ins mids _ hout (by decide)]
        | cons x xs => rw [handler_eval_noFail_cons init csv rr ins mids x xs hout]
    | failAtFinalFlush =>
        cases lf with
        | nil => rw [handler_eval_nil init csv rr ins mids _ hout (by decide)]
        | cons x xs => rw [handler_eval_flush_cons init csv rr ins mids x xs hout]
  · intro init2
    cases f with
    | failAtRead => rw [handler_eval_failRead, handler_eval_failRead]
    | noFail =>
        cases lf with
        | nil =>
            rw [handler_eval_nil init csv rr ins mids _ hout (by decide),
              handler_eval_nil init2 csv rr ins mids _ hout (by decide)]
        | cons x xs =>
            rw [handler_eval_noFail_cons init csv rr ins mids x xs hout,
              handler_eval_noFail_cons init2 csv rr ins mids x xs hout]
    | failAtFinalFlush =>
        cases lf with
        | nil =>
            rw [handler_eval_nil init csv rr ins mids _ hout (by decide),
              handler_eval_nil init2 csv rr ins mids _ hout (by decide)]
        | cons x xs =>
            rw [handler_eval_flush_cons init csv rr ins mids x xs hout,
              handler_eval_flush_cons init2 csv rr ins mids x xs hout]

/-- C4: the load stage accumulates rows into batches of at most 1000,
committing each full batch inside the loop and the remaining partial
batch after the scan: on a fault-free run over valid records every
record is read, `rows_inserted` equals the number of records, and the
committed batch sizes are ⌊n/1000⌋ copies of 1000 followed by the
nonzero remainder. -/
theorem load_batching (init : List SalesRec) (csv : List LoadRow)
    (h : ∀ r ∈ csv, loadRowValid r = true) :
    (lambda_handler_load init csv LoadFail.noFail).rowsRead = csv.length ∧
    (lambda_handler_load init csv LoadFail.noFail).rowsInserted = csv.length ∧
    (lambda_handler_load init csv LoadFail.noFail).commits.map List.length =
      List.replicate (csv.length / 1000) 1000 ++
        (if csv.length % 1000 = 0 then [] else [csv.length % 1000]) := by
  obtain ⟨h1, h2, h3, h4⟩ := loadLoop_valid csv [] 0 0 h (by norm_num)
  rcases hout : loadLoop csv [] 0 0 with ⟨rr, ins, mids, lf⟩
  rw [hout] at h1 h2 h3 h4
  dsimp only at h1 h2 h3 h4
  simp only [List.length_nil, Nat.zero_add] at h1 h2 h3 h4
  cases lf with
  | nil =>
      have hm0 : csv.length % 1000 = 0 := by simpa using h4.symm
      rw [handler_eval_nil init csv rr ins mids _ hout (by decide)]
      refine ⟨?_, ?_, ?_⟩
      · dsimp only; omega
      · dsimp only; omega
      · dsimp only; rw [h3, if_pos hm0, List.append_nil]
  | cons x xs =>
      have hm0 : csv.length % 1000 ≠ 0 := by
        intro hc
        rw [hc] at h4
        simp at h4
      rw [handler_eval_noFail_cons init csv rr ins mids x xs hout]
      refine ⟨?_, ?_, ?_⟩
      · dsimp only; omega
      · dsimp only
        simp only [List.length_cons] at h4 ⊢
        omega
      · dsimp only
        rw [List.map_append, h3, if_neg hm0]
        simp [h4]

/-- C4 (witness): loading 2500 valid records commits exactly three times
with batch sizes 1000, 1000 and 500, and reports 2500 rows inserted. -/
theorem load_batching_witness :
    (∀ r ∈ List.replicate 2500 sampleLoadRow, loadRowValid r = true) ∧
    (lambda_handler_load [] (List.replicate 2500 sampleLoadRow)
      LoadFail.noFail).rowsInserted = 2500 ∧
    (lambda_handler_load [] (List.replicate 2500 sampleLoadRow)
      LoadFail.noFail).commits.map List.length = [1000, 1000, 500] := by
  have hval : ∀ r ∈ List.replicate 2500 sampleLoadRow, loadRowValid r = true := by
    intro r hr
    rw [List.eq_of_mem_replicate hr]
    decide
  obtain ⟨_, h2, h3⟩ := load_batching [] (List.replicate 2500 sampleLoadRow) hval
  refine ⟨hval, ?_, ?_⟩
  · rw [h2, List.length_replicate]
  · rw [h3, List.length_replicate]
    norm_num [List.replicate]

/-- C10: in every fault-free load run rows_inserted ≤ rows_read;
entirely blank records are passed over before being counted in
rows_read; records with an empty (after strip) Order ID or a failing
per-row extraction are counted in rows_read but contribute nothing to
the batch; and an empty Order ID always makes the extraction fail. -/
theorem load_read_insert_counts (init : List SalesRec) (csv : List LoadRow) :
    ((lambda_handler_load init csv LoadFail.noFail).rowsInserted ≤
      (lambda_handler_load init csv LoadFail.noFail).rowsRead) ∧
    (∀ (r : LoadRow) (rest : List LoadRow) (batch : List SalesRec) (rr ins : Nat),
        loadRowBlank r = true →
        loadLoop (r :: rest) batch rr ins = loadLoop rest batch rr ins) ∧
    (∀ (r : LoadRow) (rest : List LoadRow) (batch : List SalesRec) (rr ins : Nat),
        loadRowBlank r = false → parseLoadRow r = none →
        loadLoop (r :: rest) batch rr ins = loadLoop rest batch (rr + 1) ins) ∧
    (∀ r : LoadRow, pyStrip r.orderId = "" → parseLoadRow r = none) := by
  refine ⟨?_, loadLoop_blank, loadLoop_skip, parseLoadRow_empty_id⟩
  have hle := loadLoop_le csv [] 0 0 (by norm_num)
  rcases hout : loadLoop csv [] 0 0 with ⟨rr, ins, mids, lf⟩
  rw [hout] at hle
  dsimp only at hle
  cases lf with
  | nil =>
      rw [handler_eval_nil init csv rr ins mids _ hout (by decide)]
      dsimp only
      simpa using hle
  | cons x xs =>
      rw [handler_eval_noFail_cons init csv rr ins mids x xs hout]
      dsimp only
      simp only [List.length_cons] at hle ⊢
      omega

/-- C10 (witness): the counting facts at concrete records — a blank
record, a whitespace-only Order ID record, and a valid record. -/
theorem load_read_insert_counts_witness :
    ((lambda_handler_load [] [blankLoadRow, emptyIdLoadRow, sampleLoadRow]
        LoadFail.noFail).rowsInserted ≤
      (lambda_handler_load [] [blankLoadRow, emptyIdLoadRow, sampleLoadRow]
        LoadFail.noFail).rowsRead) ∧
    loadLoop [blankLoadRow] [] 0 0 = loadLoop [] [] 0 0 ∧
    loadLoop [emptyIdLoadRow] [] 0 0 = loadLoop [] [] (0 + 1) 0 ∧
    parseLoadRow emptyIdLoadRow = none := by
  obtain ⟨h1, h2, h3, h4⟩ := load_read_insert_counts [] [blankLoadRow, emptyIdLoadRow, sampleLoadRow]
  exact ⟨h1, h2 blankLoadRow [] [] 0 0 (by decide),
    h3 emptyIdLoadRow [] [] 0 0 (by decide) (by decide),
    h4 emptyIdLoadRow (by decide)⟩

/-! ## Claim theorems: query stage -/

/-- C6: for any two query requests with the same filter keys, group-by
list and aggregations but different filter values, the generated query
text is identical — filter values never reach the text, they appear
only in the bound-parameter list, in filter order, whatever their
content. -/
theorem query_filter_values_only_parameters
    (f1 f2 : List (String × String)) (gb : List String) (ag : List (String × String))
    (hk : f1.map Prod.fst = f2.map Prod.fst) :
    ((buildQuery f1 gb ag).map Prod.fst = (buildQuery f2 gb ag).map Prod.fst) ∧
    (∀ q ps, buildQuery f1 gb ag = Except.ok (q, ps) → ps = f1.map Prod.snd) := by
  have hemp : f1.isEmpty = f2.isEmpty := by
    cases f1 <;> cases f2 <;> simp_all
  have hwc : f1.map (fun kv => normalize_column kv.1 ++ " = %s") =
      f2.map (fun kv => normalize_column kv.1 ++ " = %s") :=
    calc f1.map (fun kv => normalize_column kv.1 ++ " = %s")
        = (f1.map Prod.fst).map (fun k => normalize_column k ++ " = %s") := by
          rw [List.map_map]; rfl
      _ = (f2.map Prod.fst).map (fun k => normalize_column k ++ " = %s") := by rw [hk]
      _ = f2.map (fun kv => normalize_column kv.1 ++ " = %s") := by rw [List.map_map]; rfl
  constructor
  · unfold buildQuery
    cases hag : buildAggFields ag with
    | error e => simp [Except.bind]
    | ok fields =>
        simp only [Except.bind]
        by_cases hsel : ((fields ++ gb.map normalize_column).isEmpty = true)
        · rw [if_pos hsel, if_pos hsel]
        · rw [if_neg hsel, if_neg hsel]
          simp only [Except.map]
          rw [hwc, hemp]
  · intro q ps h
    unfold buildQuery at h
    cases hag : buildAggFields ag with
    | error e => rw [hag] at h; simp [Except.bind] at h
    | ok fields =>
        rw [hag] at h
        simp only [Except.bind] at h
        by_cases hsel : ((fields ++ gb.map normalize_column).isEmpty = true)
        · rw [if_pos hsel] at h; simp at h
        · rw [if_neg hsel] at h
          simp only [Except.ok.injEq, Prod.mk.injEq] at h
          exact h.2.symm

/-- C6 (witness): two requests differing only in the filter value — one
benign, one full of SQL metacharacters — produce the same query text,
and the value lands in the parameter list. -/
theorem query_filter_values_witness :
    (([("Region", "Europe")] : List (String × String)).map Prod.fst =
      ([("Region", "1 OR 1=1; DROP TABLE sales")] : List (String × String)).map Prod.fst) ∧
    ((buildQuery [("Region", "Europe")] ["Country"]
        [("total_revenue", "SUM(Total Revenue)")]).map Prod.fst =
      (buildQuery [("Region", "1 OR 1=1; DROP TABLE sales")] ["Country"]
        [("total_revenue", "SUM(Total Revenue)")]).map Prod.fst) ∧
    (∀ q ps, buildQuery [("Region", "Europe")] ["Country"]
        [("total_revenue", "SUM(Total Revenue)")] = Except.ok (q, ps) →
      ps = ["Europe"]) := by
  have h := query_filter_values_only_parameters [("Region", "Europe")]
    [("Region", "1 OR 1=1; DROP TABLE sales")] ["Country"]
    [("total_revenue", "SUM(Total Revenue)")] (by rfl)
  exact ⟨rfl, h.1, h.2⟩
